import Mathlib

/-!
Shallow embedding of the Bazaar SCM client adapter
(src/rbtools/clients/bazaar.py) together with proofs of the
specification claims about it.

External collaborators (the process-execution facility, the
installation check and the RepositoryInfo record) live outside src and
are modelled from the spec.  Subprocess interaction is modelled by an
environment that maps an argv to the stdout text and the exit code of
the invoked tool; every adapter operation additionally returns the
trace of argv lists it executed, in order, so that claims about which
subprocesses run are statable.
-/

namespace Bazaar

/-- Python truthiness of an optional string: None and the empty string
are falsy, every other string is truthy. -/
def pyTruthy : Option String → Bool
  | none => false
  | some s => decide (s ≠ "")

/-- The characters stripped by Python str.rstrip with no argument. -/
def isPySpace (c : Char) : Bool :=
  c == ' ' || c == '\t' || c == '\n' || c == '\r' || c == '\x0b' || c == '\x0c'

/-- Python str.rstrip: drop trailing whitespace. -/
def pyRstrip (s : String) : String :=
  ⟨(s.data.reverse.dropWhile isPySpace).reverse⟩

/-- Boolean test that sep is a prefix of the second list. -/
def listStartsWith : List Char → List Char → Bool
  | [], _ => true
  | _ :: _, [] => false
  | p :: ps, c :: cs => p == c && listStartsWith ps cs

/-- First occurrence of sep in s: the text before it and the text after
it, or none when sep does not occur.  This is the scan that underlies
both the Python in operator and str.split. -/
def findSplit (sep : List Char) : List Char → Option (List Char × List Char)
  | [] => none
  | c :: cs =>
    if listStartsWith sep (c :: cs) then some ([], List.drop sep.length (c :: cs))
    else
      match findSplit sep cs with
      | none => none
      | some (pre, post) => some (c :: pre, post)

/-- Python substring containment, the in operator, for nonempty needles. -/
def containsSub (needle s : List Char) : Bool :=
  (findSplit needle s).isSome

/-- Python revision_range.split with the two-dot separator: split at
each non-overlapping occurrence, scanning left to right. -/
def splitDots (s : List Char) : List (List Char) :=
  match h : findSplit ['.', '.'] s with
  | none => [s]
  | some (pre, post) => pre :: splitDots post
termination_by s.length
decreasing_by
  have key : ∀ (t p q : List Char),
      findSplit ['.', '.'] t = some (p, q) → q.length < t.length := by
    intro t
    induction t with
    | nil => intro p q hx; simp [findSplit] at hx
    | cons c cs ih =>
      intro p q hx
      simp only [findSplit] at hx
      by_cases hb : listStartsWith ['.', '.'] (c :: cs)
      · rw [if_pos hb] at hx
        cases hx
        simp only [List.length_drop, List.length_cons]
        omega
      · rw [if_neg hb] at hx
        cases hfs : findSplit ['.', '.'] cs with
        | none => rw [hfs] at hx; cases hx
        | some pq =>
          rw [hfs] at hx
          have hlen := ih pq.1 pq.2 (by rw [hfs])
          cases hx
          simp only [List.length_cons]
          omega
  exact key s pre post h

/-- The run-time failures Python can raise in the modelled code: die is
the fatal abort of the process helper on an unignored nonzero exit
code, indexError a list index out of range, attributeError the access
of .end on the None returned by a failed regex search, nameError the
evaluation of the unbound name debug, which the module never imports
or defines. -/
inductive PyError where
  | die
  | indexError
  | attributeError
  | nameError
  deriving DecidableEq, Repr

/-- Modelled from the spec: the RepositoryInfo record produced for the
reviewing client, with path, basePath and supportsParentDiffs fields.
The class itself lives in rbtools.clients, outside src. -/
structure RepositoryInfo where
  path : String
  base_path : String
  supports_parent_diffs : Bool
  deriving DecidableEq, Repr

/-- The fields of the shared options object read or written by the
adapter.  String-valued options are Option String so that Python None
and the empty string stay distinguishable. -/
structure Options where
  repository_url : Option String
  parent_branch : Option String
  guess_summary : Bool
  summary : Option String
  guess_description : Bool
  description : Option String
  deriving DecidableEq, Repr

/-- Modelled from the spec: the external world the adapter talks to.
check_install is the installation-check facility; run maps an argv to
the stdout text and the exit code of the invoked subprocess. -/
structure Env where
  check_install : String → Bool
  run : List String → String × Nat

/-- Modelled from the spec: the process-execution facility
execute(argv, ignoreErrors, extraIgnoreErrors) of rbtools.utils.process
(outside src).  It returns the captured stdout; a nonzero exit code
that is neither ignored wholesale nor in the extra allowlist aborts the
whole invocation (die semantics).  The first component is the trace of
executed argvs. -/
def execute (env : Env) (argv : List String) (ignore_errors : Bool)
    (extra_ignore_errors : List Nat) : List (List String) × Except PyError String :=
  let r := env.run argv
  ([argv],
   if r.2 == 0 || ignore_errors || extra_ignore_errors.contains r.2 then Except.ok r.1
   else Except.error PyError.die)

/-- BazaarClient._get_config: run bzr config for the name, with exit
code 3 in the extra allowlist; when the output contains the literal
does-not-exist error message return None, otherwise the output with
trailing whitespace stripped. -/
def _get_config (env : Env) (name : String) :
    List (List String) × Except PyError (Option String) :=
  let r := execute env ["bzr", "config", name] false [3]
  (r.1,
   match r.2 with
   | Except.error e => Except.error e
   | Except.ok value =>
     if containsSub ("ERROR: The \"" ++ name ++ "\" configuration option does not exist.").data
         value.data then Except.ok none
     else Except.ok (some (pyRstrip value)))

/-- The for-loop of get_repository_info: query each configuration key
in order and stop at the first one that resolves to a value. -/
def configLoop (env : Env) : List String → List (List String) × Except PyError (Option String)
  | [] => ([], Except.ok none)
  | loc :: rest =>
    let r := _get_config env loc
    match r.2 with
    | Except.error e => (r.1, Except.error e)
    | Except.ok (some v) => (r.1, Except.ok (some v))
    | Except.ok none =>
      let rr := configLoop env rest
      (r.1 ++ rr.1, rr.2)

/-- BazaarClient.get_repository_info: None when bzr is not installed;
a short-circuit RepositoryInfo when options.repository_url is truthy;
otherwise the first of submit_branch and parent_location that is
configured, or None when neither is. -/
def get_repository_info (env : Env) (opts : Options) :
    List (List String) × Except PyError (Option RepositoryInfo) :=
  if env.check_install "bzr help" = false then ([], Except.ok none)
  else if pyTruthy opts.repository_url then
    ([], Except.ok (some
      { path := opts.repository_url.getD "",
        base_path := "/",
        supports_parent_diffs := true }))
  else
    let r := configLoop env ["submit_branch", "parent_location"]
    (r.1,
     match r.2 with
     | Except.error e => Except.error e
     | Except.ok none => Except.ok none
     | Except.ok (some branch) =>
       Except.ok (some
         { path := branch,
           base_path := "/",
           supports_parent_diffs := true }))

/-- BazaarClient._get_range_diff: run bzr dif -q -r range plus the
files, ignoring the exit code, and normalize an empty output to None.
The stray Python 2 print statement of the source only writes to stdout
and has no modelled effect. -/
def _get_range_diff (env : Env) (revision_range : String) (files : List String) :
    List (List String) × Except PyError (Option String) :=
  let diff_cmd := ["bzr", "dif", "-q", "-r", revision_range]
  let r := execute env (diff_cmd ++ files) true []
  (r.1, r.2.map fun out => if out = "" then none else some out)

/-- One position of the ISO-date regex of the source, four digits then
a dash then two digits then a dash then two digits: true when such a
ten-character date token sits at the head of the list. -/
def matchesDateAt : List Char → Bool
  | d1 :: d2 :: d3 :: d4 :: h1 :: m1 :: m2 :: h2 :: t1 :: t2 :: _ =>
    d1.isDigit && d2.isDigit && d3.isDigit && d4.isDigit && h1 == '-' &&
    m1.isDigit && m2.isDigit && h2 == '-' && t1.isDigit && t2.isDigit
  | _ => false

/-- re.search for the ISO-date pattern: the end index, exclusive, of
the leftmost match, or none when no position matches. -/
def searchDate : List Char → Option Nat
  | [] => none
  | c :: cs =>
    if matchesDateAt (c :: cs) then some 10
    else (searchDate cs).map (· + 1)

/-- BazaarClient._extract_summary: take the single-line log for the
revision, strip trailing whitespace, find the first ISO date and slice
off everything up to and including one character after it.  When the
regex search finds nothing, Python dereferences None and raises
AttributeError.  When it succeeds, the source then evaluates
debug(...), but debug is an unbound name in the module (the imports
are only os, re, sys, SCMClient, RepositoryInfo, check_install, die,
execute and workingtree), so the computed summary is followed by a
NameError and the function never returns it. -/
def _extract_summary (env : Env) (revision : String) :
    List (List String) × Except PyError String :=
  let r := execute env ["bzr", "log", "-r", revision, "--line"] false []
  (r.1,
   match r.2 with
   | Except.error e => Except.error e
   | Except.ok out =>
     let log_message := pyRstrip out
     match searchDate log_message.data with
     | none => Except.error PyError.attributeError
     | some matchEnd =>
       let truncated_characters := matchEnd + 1
       let _summary : String := ⟨List.drop truncated_characters log_message.data⟩
       Except.error PyError.nameError)

/-- BazaarClient._extract_description: a changelog-style log for the
range when one is given, otherwise the outgoing revisions relative to
the parent branch or the submit target; both in short format, with
trailing whitespace stripped.  After computing the changelog the
source evaluates debug(...), the same unbound name as in
_extract_summary, so the function raises NameError instead of
returning the changelog. -/
def _extract_description (env : Env) (opts : Options) (revision_range : Option String) :
    List (List String) × Except PyError String :=
  let command : List String :=
    if pyTruthy revision_range then
      ["bzr"] ++ ["log", "-n1", "--gnu-changelog", "--exclude-common-ancestry",
                  "-r", revision_range.getD ""] ++ ["--short"]
    else
      let branch := if pyTruthy opts.parent_branch then opts.parent_branch.getD "" else ":submit"
      ["bzr"] ++ ["missing", "-q", "--mine-only", "--gnu-changelog", branch] ++ ["--short"]
  let r := execute env command true []
  (r.1,
   match r.2 with
   | Except.error e => Except.error e
   | Except.ok out =>
     let _changelog := pyRstrip out
     Except.error PyError.nameError)

/-- BazaarClient._set_summary: fill options.summary from the revision
log only when guessing is requested and the field is falsy. -/
def _set_summary (env : Env) (opts : Options) (revision : String) :
    List (List String) × Except PyError Options :=
  if opts.guess_summary && !(pyTruthy opts.summary) then
    let r := _extract_summary env revision
    (r.1, r.2.map fun s => { opts with summary := some s })
  else ([], Except.ok opts)

/-- BazaarClient._set_description: fill options.description from the
changelog only when guessing is requested and the field is falsy. -/
def _set_description (env : Env) (opts : Options) (revision_range : Option String) :
    List (List String) × Except PyError Options :=
  if opts.guess_description && !(pyTruthy opts.description) then
    let r := _extract_description env opts revision_range
    (r.1, r.2.map fun s => { opts with description := some s })
  else ([], Except.ok opts)

/-- BazaarClient.diff: build the pending-changes revision range, diff
it, fill summary and description when asked to, and return the pair of
the diff and the always-absent parent diff, together with the updated
options. -/
def diff (env : Env) (opts : Options) (files : Option (List String)) :
    List (List String) × Except PyError ((Option String × Option String) × Options) :=
  let fs := files.getD []
  let revision_range :=
    if pyTruthy opts.parent_branch then "ancestor:" ++ opts.parent_branch.getD "" ++ ".."
    else "submit:.."
  let r1 := _get_range_diff env revision_range fs
  match r1.2 with
  | Except.error e => (r1.1, Except.error e)
  | Except.ok d =>
    let r2 := _set_summary env opts "-1"
    match r2.2 with
    | Except.error e => (r1.1 ++ r2.1, Except.error e)
    | Except.ok opts1 =>
      let r3 := _set_description env opts1 (some revision_range)
      match r3.2 with
      | Except.error e => (r1.1 ++ r2.1 ++ r3.1, Except.error e)
      | Except.ok opts2 => (r1.1 ++ r2.1 ++ r3.1, Except.ok ((d, none), opts2))

/-- BazaarClient.diff_between_revisions: diff the explicit range, then
derive the summary revision as element 1 of the range split on the
two-dot delimiter, raising IndexError when the split has no element 1,
and fill summary and description when asked to. -/
def diff_between_revisions (env : Env) (opts : Options) (revision_range : String)
    (files : List String) (_repository_info : RepositoryInfo) :
    List (List String) × Except PyError (Option String × Options) :=
  let r1 := _get_range_diff env revision_range files
  match r1.2 with
  | Except.error e => (r1.1, Except.error e)
  | Except.ok d =>
    match (splitDots revision_range.data)[1]? with
    | none => (r1.1, Except.error PyError.indexError)
    | some last_revision =>
      let r2 := _set_summary env opts ⟨last_revision⟩
      match r2.2 with
      | Except.error e => (r1.1 ++ r2.1, Except.error e)
      | Except.ok opts1 =>
        let r3 := _set_description env opts1 (some revision_range)
        match r3.2 with
        | Except.error e => (r1.1 ++ r2.1 ++ r3.1, Except.error e)
        | Except.ok opts2 => (r1.1 ++ r2.1 ++ r3.1, Except.ok (d, opts2))

/-- An environment whose subprocesses all answer with the same output
and exit code and in which bzr is installed. -/
def constEnv (out : String) (code : Nat) : Env :=
  { check_install := fun _ => true, run := fun _ => (out, code) }

/-- Options with every field unset, used as concrete inputs. -/
def optsNone : Options :=
  { repository_url := none, parent_branch := none, guess_summary := false,
    summary := none, guess_description := false, description := none }

theorem execute_ok (env : Env) (argv : List String) (ignore_errors : Bool)
    (extra : List Nat)
    (h : (env.run argv).2 = 0 ∨ ignore_errors = true ∨ extra.contains (env.run argv).2 = true) :
    execute env argv ignore_errors extra = ([argv], Except.ok (env.run argv).1) := by
  unfold execute
  rcases h with h | h | h <;> simp [h]
  intro _ _
  exact List.mem_of_elem_eq_true h

theorem execute_ignore (env : Env) (argv : List String) (extra : List Nat) :
    execute env argv true extra = ([argv], Except.ok (env.run argv).1) :=
  execute_ok env argv true extra (Or.inr (Or.inl rfl))

theorem listStartsWith_iff (p l : List Char) : listStartsWith p l = true ↔ p <+: l := by
  induction p generalizing l with
  | nil => simp [listStartsWith]
  | cons a ps ih =>
    cases l with
    | nil => simp [listStartsWith]
    | cons c cs => simp [listStartsWith, List.cons_prefix_cons, ih]

theorem findSplit_isSome_iff (sep : List Char) (hsep : sep ≠ []) (s : List Char) :
    (findSplit sep s).isSome = true ↔ sep <:+: s := by
  induction s with
  | nil =>
    simp only [findSplit, Option.isSome_none, List.infix_nil]
    simp [hsep]
  | cons c cs ih =>
    simp only [findSplit]
    by_cases hb : listStartsWith sep (c :: cs)
    · rw [if_pos hb]
      simp only [Option.isSome_some, true_iff]
      exact ((listStartsWith_iff sep (c :: cs)).mp hb).isInfix
    · rw [if_neg hb]
      rw [List.infix_cons_iff]
      have hnp : ¬ sep <+: c :: cs := fun hp => hb ((listStartsWith_iff sep (c :: cs)).mpr hp)
      cases hfs : findSplit sep cs with
      | none =>
        simp only [Option.isSome_none, false_iff]
        rw [hfs] at ih
        simp only [Option.isSome_none, false_iff] at ih
        tauto
      | some pq =>
        rw [hfs] at ih
        simp only [Option.isSome_some, true_iff] at ih
        simp only [Option.isSome_some, true_iff]
        exact Or.inr ih

theorem findSplit_eq_none_of_not_infix (sep : List Char) (hsep : sep ≠ []) (s : List Char)
    (h : ¬ sep <:+: s) : findSplit sep s = none := by
  have := (findSplit_isSome_iff sep hsep s).not.mpr h
  cases hfs : findSplit sep s with
  | none => rfl
  | some pq => rw [hfs] at this; simp at this

theorem containsSub_iff_infix (needle s : List Char) (hn : needle ≠ []) :
    containsSub needle s = true ↔ needle <:+: s :=
  findSplit_isSome_iff needle hn s

theorem splitDots_of_no_dots (s : List Char) (h : findSplit ['.', '.'] s = none) :
    splitDots s = [s] := by
  rw [splitDots.eq_def]
  split
  · rfl
  · rename_i pre post hfs
    rw [h] at hfs
    cases hfs

theorem searchDate_eq_none_iff (l : List Char) :
    searchDate l = none ↔ ∀ i, matchesDateAt (List.drop i l) = false := by
  induction l with
  | nil =>
    constructor
    · intro _ i
      rw [List.drop_nil]
      rfl
    · intro _
      rfl
  | cons c cs ih =>
    simp only [searchDate]
    constructor
    · intro h i
      by_cases hm : matchesDateAt (c :: cs)
      · rw [if_pos hm] at h
        cases h
      · rw [if_neg hm] at h
        have hcs : searchDate cs = none := by
          cases hsc : searchDate cs with
          | none => rfl
          | some k => rw [hsc] at h; simp at h
        cases i with
        | zero =>
          rw [List.drop_zero]
          exact Bool.not_eq_true _ ▸ (by simpa using hm)
        | succ j =>
          rw [List.drop_succ_cons]
          exact (ih.mp hcs) j
    · intro h
      have h0 := h 0
      rw [List.drop_zero] at h0
      rw [if_neg (by simp [h0])]
      have hcs : searchDate cs = none := ih.mpr (fun j => by
        have := h (j + 1)
        rwa [List.drop_succ_cons] at this)
      rw [hcs]
      rfl

theorem get_range_diff_run (env : Env) (revision_range : String) (files : List String) :
    _get_range_diff env revision_range files =
      ([["bzr", "dif", "-q", "-r", revision_range] ++ files],
       Except.ok
         (if (env.run (["bzr", "dif", "-q", "-r", revision_range] ++ files)).1 = "" then none
          else some (env.run (["bzr", "dif", "-q", "-r", revision_range] ++ files)).1)) := by
  unfold _get_range_diff
  simp only [execute_ignore, Except.map]

/-- Claim C1: the adapter writes options.summary only when
options.guess_summary is set and options.summary is currently empty,
and writes options.description only when options.guess_description is
set and options.description is currently empty; in every other state
the setters return the options unchanged and run no subprocess, so an
already non-empty summary or description is never overwritten, even
when the corresponding guess flag is true. -/
theorem set_summary_description_fill_if_absent (env : Env) (opts : Options)
    (rev : String) (rng : Option String) :
    (_set_summary env opts rev = ([], Except.ok opts) ∨
      (opts.guess_summary = true ∧ pyTruthy opts.summary = false)) ∧
    (_set_description env opts rng = ([], Except.ok opts) ∨
      (opts.guess_description = true ∧ pyTruthy opts.description = false)) := by
  constructor
  · by_cases h : opts.guess_summary && !(pyTruthy opts.summary)
    · right
      simpa using h
    · left
      unfold _set_summary
      rw [if_neg h]
  · by_cases h : opts.guess_description && !(pyTruthy opts.description)
    · right
      simpa using h
    · left
      unfold _set_description
      rw [if_neg h]

/-- Concrete environment for the claim C2 failing input: the log line
of the claim. -/
def envC2 : Env := constEnv "123: Jane Doe 2024-01-05 Fixed the thing" 0

/-- Claim C2, code bug: on the log line of the claim the regex search
does find the ISO date ending at index 24, and the date-relative slice
the source computes, one character past the match, is exactly Fixed
the thing, as the claim says; but the source then evaluates the
unbound name debug, so _extract_summary raises NameError and never
returns that summary. -/
theorem extract_summary_debug_name_error :
    _extract_summary envC2 "123" =
      ([["bzr", "log", "-r", "123", "--line"]], Except.error PyError.nameError) ∧
    searchDate (pyRstrip "123: Jane Doe 2024-01-05 Fixed the thing").data = some 24 ∧
    (⟨List.drop 25 (pyRstrip "123: Jane Doe 2024-01-05 Fixed the thing").data⟩ : String) =
      "Fixed the thing" :=
  ⟨rfl, rfl, rfl⟩

/-- Claim C4: whatever the exit status of the diff subprocess, when its
output is empty _get_range_diff returns None rather than the empty
string, and a non-empty output is returned as-is. -/
theorem range_diff_empty_is_none (env : Env) (revision_range : String) (files : List String)
    (out : String) (code : Nat)
    (hrun : env.run (["bzr", "dif", "-q", "-r", revision_range] ++ files) = (out, code)) :
    (out = "" → (_get_range_diff env revision_range files).2 = Except.ok none) ∧
    (out ≠ "" → (_get_range_diff env revision_range files).2 = Except.ok (some out)) := by
  rw [get_range_diff_run, hrun]
  constructor
  · intro h
    simp [h]
  · intro h
    simp [h]

/-- Concrete environment for the claim C4 witness: empty diff output
with a nonzero exit code. -/
def envC4 : Env := constEnv "" 7

theorem range_diff_empty_is_none_witness :
    (_get_range_diff envC4 "2..3" []).2 = Except.ok none :=
  (range_diff_empty_is_none envC4 "2..3" [] "" 7 rfl).1 rfl

/-- Claim C8, amended: _get_range_diff invokes exactly one subprocess,
whose argv is bzr, then the token dif, a bzr alias of the diff
subcommand, then -q, -r, the range, then the files. -/
theorem range_diff_argv (env : Env) (revision_range : String) (files : List String) :
    (_get_range_diff env revision_range files).1 =
      [["bzr", "dif", "-q", "-r", revision_range] ++ files] := rfl

/-- Claim C8, counterexample to the literal claim: the subcommand token
of the invoked argv is dif, not diff. -/
theorem range_diff_argv_counterexample :
    (_get_range_diff (constEnv "" 0) "1..2" ["f.txt"]).1 =
      [["bzr", "dif", "-q", "-r", "1..2", "f.txt"]] ∧
    (_get_range_diff (constEnv "" 0) "1..2" ["f.txt"]).1 ≠
      [["bzr", "diff", "-q", "-r", "1..2", "f.txt"]] := ⟨rfl, by decide⟩

/-- Claim C3: when the config-query output contains the exact
does-not-exist error message for the name, _get_config returns None,
never the error text; otherwise it returns the output with trailing
whitespace stripped.  The hypothesis restricts the exit code to the
values the call does not treat as fatal. -/
theorem get_config_missing_option (env : Env) (name : String)
    (h : (env.run ["bzr", "config", name]).2 = 0 ∨ (env.run ["bzr", "config", name]).2 = 3) :
    (_get_config env name).2 =
      if containsSub ("ERROR: The \"" ++ name ++ "\" configuration option does not exist.").data
          (env.run ["bzr", "config", name]).1.data
      then Except.ok none
      else Except.ok (some (pyRstrip (env.run ["bzr", "config", name]).1)) := by
  have hexec : execute env ["bzr", "config", name] false [3] =
      ([["bzr", "config", name]], Except.ok (env.run ["bzr", "config", name]).1) := by
    apply execute_ok
    rcases h with h | h
    · exact Or.inl h
    · right
      right
      rw [h]
      rfl
  unfold _get_config
  rw [hexec]

/-- Concrete environment for the claim C3 witness: the tool reports the
does-not-exist message with exit code 3. -/
def envC3 : Env :=
  constEnv "ERROR: The \"submit_branch\" configuration option does not exist.\n" 3

theorem get_config_missing_option_witness :
    (_get_config envC3 "submit_branch").2 = Except.ok none := by
  have h := get_config_missing_option envC3 "submit_branch" (Or.inr rfl)
  have hc : containsSub
      ("ERROR: The \"" ++ "submit_branch" ++ "\" configuration option does not exist.").data
      (envC3.run ["bzr", "config", "submit_branch"]).1.data = true := by decide
  rw [h, if_pos hc]

theorem configLoop_nil (env : Env) : configLoop env [] = ([], Except.ok none) := rfl

theorem configLoop_cons_some (env : Env) (loc : String) (rest : List String) (v : String)
    (h : (_get_config env loc).2 = Except.ok (some v)) :
    configLoop env (loc :: rest) = ([["bzr", "config", loc]], Except.ok (some v)) := by
  simp only [configLoop]
  rw [h]
  rfl

theorem configLoop_cons_none (env : Env) (loc : String) (rest : List String)
    (h : (_get_config env loc).2 = Except.ok none) :
    configLoop env (loc :: rest) =
      ([["bzr", "config", loc]] ++ (configLoop env rest).1, (configLoop env rest).2) := by
  simp only [configLoop]
  rw [h]
  rfl

/-- Claim C5: without an explicit repository URL, get_repository_info
queries submit_branch first and parent_location second and returns a
RepositoryInfo whose path is the first key that resolves; when both
are configured the submit_branch value wins, and when neither resolves
it returns None. -/
theorem get_repository_info_priority (env : Env) (opts : Options)
    (hinst : env.check_install "bzr help" = true)
    (hurl : pyTruthy opts.repository_url = false) :
    (∀ v, (_get_config env "submit_branch").2 = Except.ok (some v) →
       get_repository_info env opts =
         ([["bzr", "config", "submit_branch"]],
          Except.ok (some { path := v, base_path := "/", supports_parent_diffs := true }))) ∧
    (∀ w, (_get_config env "submit_branch").2 = Except.ok none →
       (_get_config env "parent_location").2 = Except.ok (some w) →
       get_repository_info env opts =
         ([["bzr", "config", "submit_branch"], ["bzr", "config", "parent_location"]],
          Except.ok (some { path := w, base_path := "/", supports_parent_diffs := true }))) ∧
    ((_get_config env "submit_branch").2 = Except.ok none →
     (_get_config env "parent_location").2 = Except.ok none →
     get_repository_info env opts =
       ([["bzr", "config", "submit_branch"], ["bzr", "config", "parent_location"]],
        Except.ok none)) := by
  have hc1 : ¬ (env.check_install "bzr help" = false) := by simp [hinst]
  have hc2 : ¬ (pyTruthy opts.repository_url = true) := by simp [hurl]
  refine ⟨?_, ?_, ?_⟩
  · intro v hv
    simp only [get_repository_info]
    rw [if_neg hc1, if_neg hc2, configLoop_cons_some env "submit_branch" ["parent_location"] v hv]
  · intro w h1 h2
    simp only [get_repository_info]
    rw [if_neg hc1, if_neg hc2, configLoop_cons_none env "submit_branch" ["parent_location"] h1,
        configLoop_cons_some env "parent_location" [] w h2]
    rfl
  · intro h1 h2
    simp only [get_repository_info]
    rw [if_neg hc1, if_neg hc2, configLoop_cons_none env "submit_branch" ["parent_location"] h1,
        configLoop_cons_none env "parent_location" [] h2, configLoop_nil]
    rfl

/-- Concrete environment for the claim C5 witness: both configuration
keys are configured, with distinct values. -/
def envC5 : Env :=
  { check_install := fun _ => true,
    run := fun argv =>
      if argv = ["bzr", "config", "submit_branch"] then ("lp:sub\n", 0) else ("lp:par\n", 0) }

theorem get_repository_info_priority_witness :
    get_repository_info envC5 optsNone =
      ([["bzr", "config", "submit_branch"]],
       Except.ok (some { path := "lp:sub", base_path := "/", supports_parent_diffs := true })) :=
  (get_repository_info_priority envC5 optsNone rfl rfl).1 "lp:sub" rfl

/-- Claim C6: with an explicitly supplied, non-empty repository URL,
get_repository_info short-circuits to a RepositoryInfo made of that
URL, base path slash and parent-diff support, with an empty subprocess
trace, so no config lookup runs beyond the installation check. -/
theorem get_repository_info_explicit_url (env : Env) (opts : Options) (url : String)
    (hinst : env.check_install "bzr help" = true)
    (hurl : opts.repository_url = some url) (hne : url ≠ "") :
    get_repository_info env opts =
      ([], Except.ok (some { path := url, base_path := "/", supports_parent_diffs := true })) := by
  have hc1 : ¬ (env.check_install "bzr help" = false) := by simp [hinst]
  have ht : pyTruthy opts.repository_url = true := by
    rw [hurl]
    simp [pyTruthy, hne]
  simp only [get_repository_info]
  rw [if_neg hc1, if_pos ht, hurl]
  rfl

/-- Concrete options for the claim C6 witness. -/
def optsC6 : Options := { optsNone with repository_url := some "lp:myproj" }

theorem get_repository_info_explicit_url_witness :
    get_repository_info (constEnv "" 0) optsC6 =
      ([], Except.ok (some
        { path := "lp:myproj", base_path := "/", supports_parent_diffs := true })) :=
  get_repository_info_explicit_url (constEnv "" 0) optsC6 "lp:myproj" rfl rfl (by decide)

/-- Concrete environment for the claim C7 theorems: every subprocess
answers with a non-empty diff text. -/
def envDiff : Env := constEnv "some diff" 0

/-- Claim C7, counterexample to the literal claim: with no parent
branch set, the pending-diff flow invokes its only subprocess with the
revision range submit:.. and not with the claimed range submit.. -/
theorem diff_submit_range_counterexample :
    (diff envDiff optsNone none).1 = [["bzr", "dif", "-q", "-r", "submit:.."]] ∧
    (diff envDiff optsNone none).1 ≠ [["bzr", "dif", "-q", "-r", "submit.."]] :=
  ⟨rfl, by decide⟩

/-- Claim C7, amended: the pending-diff operation builds the revision
range ancestor:parentBranch.. when options.parent_branch is set and
submit:.. otherwise, computes the diff for exactly that range as its
first subprocess call, and on success returns the pair of the diff and
an always-absent parent diff. -/
theorem diff_pending_flow (env : Env) (opts : Options) (files : Option (List String)) :
    (diff env opts files).1.head? =
      some (["bzr", "dif", "-q", "-r",
             if pyTruthy opts.parent_branch then "ancestor:" ++ opts.parent_branch.getD "" ++ ".."
             else "submit:.."] ++ files.getD []) ∧
    ∀ d p opts2, (diff env opts files).2 = Except.ok ((d, p), opts2) →
      p = none ∧
      Except.ok d =
        (_get_range_diff env
          (if pyTruthy opts.parent_branch then "ancestor:" ++ opts.parent_branch.getD "" ++ ".."
           else "submit:..")
          (files.getD [])).2 := by
  simp only [diff, get_range_diff_run]
  cases h2 : (_set_summary env opts "-1").2 with
  | error e =>
    simp only [h2]
    constructor
    · rfl
    · intro d p opts2 hx
      cases hx
  | ok opts1 =>
    simp only [h2]
    cases h3 : (_set_description env opts1
        (some (if pyTruthy opts.parent_branch
               then "ancestor:" ++ opts.parent_branch.getD "" ++ ".."
               else "submit:.."))).2 with
    | error e =>
      simp only [h3]
      constructor
      · rfl
      · intro d p opts2 hx
        cases hx
    | ok opts2 =>
      simp only [h3]
      constructor
      · rfl
      · intro d p opts3 hx
        injection hx with hx
        injection hx with hx1 hx2
        injection hx1 with hd hp
        rw [← hd, ← hp]
        exact ⟨rfl, rfl⟩

theorem diff_pending_flow_witness :
    (diff envDiff optsNone none).1.head? = some ["bzr", "dif", "-q", "-r", "submit:.."] ∧
    ((none : Option String) = none ∧
      Except.ok (some "some diff") = (_get_range_diff envDiff "submit:.." []).2) := by
  have h := diff_pending_flow envDiff optsNone none
  exact ⟨h.1, h.2 (some "some diff") none optsNone rfl⟩

/-- Claim C9: when the revision range contains no two-dot delimiter,
diff_between_revisions runs the diff subprocess and then fails with an
index-out-of-range error instead of returning a result. -/
theorem diff_between_revisions_needs_dots (env : Env) (opts : Options)
    (revision_range : String) (files : List String) (info : RepositoryInfo)
    (h : ¬ (['.', '.'] <:+: revision_range.data)) :
    diff_between_revisions env opts revision_range files info =
      ([["bzr", "dif", "-q", "-r", revision_range] ++ files],
       Except.error PyError.indexError) := by
  have hfs : findSplit ['.', '.'] revision_range.data = none :=
    findSplit_eq_none_of_not_infix ['.', '.'] (by decide) revision_range.data h
  have hsd : splitDots revision_range.data = [revision_range.data] :=
    splitDots_of_no_dots revision_range.data hfs
  simp only [diff_between_revisions, get_range_diff_run, hsd]
  rfl

/-- Concrete repository info for the claim C9 witness; the parameter
is unused by the source operation. -/
def infoC9 : RepositoryInfo := { path := "p", base_path := "/", supports_parent_diffs := true }

theorem diff_between_revisions_needs_dots_witness :
    ¬ (['.', '.'] <:+: "123".data) ∧
    diff_between_revisions (constEnv "d" 0) optsNone "123" [] infoC9 =
      ([["bzr", "dif", "-q", "-r", "123"]], Except.error PyError.indexError) := by
  have hni : ¬ (['.', '.'] <:+: "123".data) := by decide
  exact ⟨hni, diff_between_revisions_needs_dots (constEnv "d" 0) optsNone "123" [] infoC9 hni⟩

/-- Claim C10: when the single-line log output contains no substring
matching the ISO-date pattern at any position, the regex search finds
nothing and _extract_summary fails with the None-dereference error
instead of returning a summary. -/
theorem extract_summary_needs_date (env : Env) (revision : String)
    (hcode : (env.run ["bzr", "log", "-r", revision, "--line"]).2 = 0)
    (h : ∀ i, matchesDateAt
        (List.drop i (pyRstrip (env.run ["bzr", "log", "-r", revision, "--line"]).1).data)
        = false) :
    _extract_summary env revision =
      ([["bzr", "log", "-r", revision, "--line"]], Except.error PyError.attributeError) := by
  have hsd : searchDate (pyRstrip (env.run ["bzr", "log", "-r", revision, "--line"]).1).data
      = none := (searchDate_eq_none_iff _).mpr h
  unfold _extract_summary
  rw [execute_ok env ["bzr", "log", "-r", revision, "--line"] false [] (Or.inl hcode)]
  simp only [hsd]

/-- Concrete environment for the claim C10 witness: a log line with
digits but no ISO-date token. -/
def envC10 : Env := constEnv "r100 no date in this line" 0

theorem extract_summary_needs_date_witness :
    _extract_summary envC10 "-1" =
      ([["bzr", "log", "-r", "-1", "--line"]], Except.error PyError.attributeError) :=
  extract_summary_needs_date envC10 "-1" rfl
    ((searchDate_eq_none_iff _).mp (by decide))

end Bazaar
